import Mathlib

/-!
Verification of the flappy-bird simulation core (`src/PythonGame`).

The Python sources are shallowly embedded: the two simulation engines
(`game_engine.py`'s `GameEngine` and `flappy_bird_sim.py`'s `FlappyBirdGame`)
become explicit state records with pure step functions, and the navigation
heuristic (`ai_controller.py`'s `shouldJump`) becomes a pure Boolean function
on a snapshot record.  Python floats are modelled as exact rationals,
Python `//` on ints as `Int.fdiv`, and the two random draws (the floor
position at level load, the gap center at pipe spawn) as explicit inputs.
-/

namespace Flappy

/-- A pipe record as stored in `GameEngine.pipes`
(`game_engine.py` lines 59-63): `xPosition`, `topPipe`, `bottomPipe`. -/
structure Pipe where
  xPosition : ℚ
  topPipe : ℚ
  bottomPipe : ℚ
  deriving DecidableEq, Repr

/-- The mutable state of `GameEngine` (`game_engine.py` lines 8-34). -/
structure GameEngine where
  screen_width : ℤ
  screen_height : ℤ
  pipe_speed : ℚ
  gravity : ℚ
  pilot_x : ℚ
  pilot_y : ℚ
  pilot_width : ℚ
  pilot_height : ℚ
  pilot_velocity : ℚ
  jump_velocity : ℚ
  floor_y : ℚ
  pipes : List Pipe
  score : ℕ
  frame_count : ℕ
  game_over : Bool
  passed_pipes : Finset ℕ
  autopilot : Bool
  deriving DecidableEq

/-- `GameEngine.__init__` (`game_engine.py` lines 9-34); the four
constructor arguments are explicit, callers pass the Python defaults. -/
def mkEngine (screen_width screen_height : ℤ) (pipe_speed gravity : ℚ) :
    GameEngine where
  screen_width := screen_width
  screen_height := screen_height
  pipe_speed := pipe_speed
  gravity := gravity
  pilot_x := 100
  pilot_y := ((screen_height.fdiv 2 : ℤ) : ℚ)
  pilot_width := 30
  pilot_height := 30
  pilot_velocity := 0
  jump_velocity := -8
  floor_y := (screen_height : ℚ)
  pipes := []
  score := 0
  frame_count := 0
  game_over := false
  passed_pipes := ∅
  autopilot := false

/-- `GameEngine()` with the Python default arguments
(800, 600, 3, 0.5). -/
def defaultEngine : GameEngine := mkEngine 800 600 3 (1/2)

/-- `GameEngine.reset` (`game_engine.py` lines 66-74). -/
def GameEngine.reset (s : GameEngine) : GameEngine :=
  { s with
    pilot_y := ((s.screen_height.fdiv 2 : ℤ) : ℚ)
    pilot_velocity := 0
    pipes := []
    score := 0
    frame_count := 0
    game_over := false
    passed_pipes := ∅ }

/-- `GameEngine.jump` (`game_engine.py` lines 76-79). -/
def GameEngine.jump (s : GameEngine) : GameEngine :=
  if s.game_over then s else { s with pilot_velocity := s.jump_velocity }

/-- `GameEngine.check_collision` (`game_engine.py` lines 109-130):
ceiling, then floor, then any pipe whose horizontal span overlaps the
pilot's with the pilot outside the gap. -/
def GameEngine.check_collision (s : GameEngine) : Bool :=
  if s.pilot_y ≤ 0 then true
  else if s.pilot_y + s.pilot_height ≥ s.floor_y then true
  else s.pipes.any fun pipe =>
    decide ((pipe.xPosition < s.pilot_x + s.pilot_width ∧
             pipe.xPosition + 50 > s.pilot_x) ∧
            (s.pilot_y < pipe.topPipe ∨
             s.pilot_y + s.pilot_height > pipe.bottomPipe))

/-- The body of the `for i, pipe in enumerate(self.pipes)` loop of
`GameEngine.update_score` (`game_engine.py` lines 132-138), with the
running `(score, passed_pipes)` accumulator made explicit; `i` is the
current index. -/
def creditLoop (px : ℚ) : List Pipe → ℕ → ℕ × Finset ℕ → ℕ × Finset ℕ
  | [], _, acc => acc
  | pipe :: rest, i, acc =>
      if pipe.xPosition + 50 < px ∧ i ∉ acc.2 then
        creditLoop px rest (i + 1) (acc.1 + 1, insert i acc.2)
      else
        creditLoop px rest (i + 1) acc

/-- `GameEngine.update_score` (`game_engine.py` lines 132-138). -/
def GameEngine.update_score (s : GameEngine) : GameEngine :=
  let r := creditLoop s.pilot_x s.pipes 0 (s.score, s.passed_pipes)
  { s with score := r.1, passed_pipes := r.2 }

/-- Steps 2-6 of `GameEngine.update` (`game_engine.py` lines 145-160):
frame increment, optional jump, velocity/position integration, pipe
advance, score update — everything before the collision check. -/
def GameEngine.step_pre (s : GameEngine) (should_jump : Bool) : GameEngine :=
  let s1 := { s with frame_count := s.frame_count + 1 }
  let s2 := if should_jump then s1.jump else s1
  let s3 := { s2 with pilot_velocity := s2.pilot_velocity + s2.gravity }
  let s4 := { s3 with pilot_y := s3.pilot_y + s3.pilot_velocity }
  let moved := s4.pipes.map (fun pipe => { pipe with xPosition := pipe.xPosition - s4.pipe_speed })
  let s5 := { s4 with pipes := moved }
  s5.update_score

/-- `GameEngine.update` (`game_engine.py` lines 140-164): no-op when
`game_over`, otherwise the pre-collision steps followed by the collision
check that latches `game_over`. -/
def GameEngine.update (s : GameEngine) (should_jump : Bool) : GameEngine :=
  if s.game_over then s
  else
    let s6 := s.step_pre should_jump
    if s6.check_collision then { s6 with game_over := true } else s6

/-- Iterated `GameEngine.update` over a list of per-tick decisions. -/
def GameEngine.ticks (s : GameEngine) : List Bool → GameEngine
  | [] => s
  | d :: ds => (s.update d).ticks ds

/-- One entry of a level's `pipes` list
(`levels.py`; read by `game_engine.py` lines 50-57). -/
structure PipeConfig where
  xPosition : ℤ
  gapCenter : ℤ
  gapHeight : ℤ
  deriving DecidableEq

/-- A level configuration: the optional `floor` range (`min`, `max`)
and the pipe descriptors (`levels.py`). -/
structure LevelConfig where
  floorRange : Option (ℤ × ℤ)
  pipes : List PipeConfig
  deriving DecidableEq

/-- The pipe built for one descriptor by `GameEngine.load_level`
(`game_engine.py` lines 50-64): `gapCenter ± gapHeight // 2`, and when
the resulting bottom exceeds the floor, the gap is moved up to end
10px above the floor keeping the full `gapHeight`. -/
def mkLevelPipe (floor_y : ℚ) (pc : PipeConfig) : Pipe :=
  let gap_top : ℤ := pc.gapCenter - pc.gapHeight.fdiv 2
  let gap_bottom : ℤ := pc.gapCenter + pc.gapHeight.fdiv 2
  if (gap_bottom : ℚ) > floor_y then
    { xPosition := (pc.xPosition : ℚ)
      topPipe := (floor_y - 10) - (pc.gapHeight : ℚ)
      bottomPipe := floor_y - 10 }
  else
    { xPosition := (pc.xPosition : ℚ)
      topPipe := (gap_top : ℚ)
      bottomPipe := (gap_bottom : ℚ) }

/-- `GameEngine.load_level` (`game_engine.py` lines 36-64).  `floorDraw`
is the value produced by `random.randint` on the floor range; with
`min > max`, `random.randint` raises, so the call fails — but only after
`self.reset()` has already run, which the `.error` state records. -/
def GameEngine.load_level (s : GameEngine) (cfg : LevelConfig) (floorDraw : ℤ) :
    Except GameEngine GameEngine :=
  let s0 := s.reset
  match cfg.floorRange with
  | some (mn, mx) =>
      if mn > mx then .error s0
      else
        let s1 := { s0 with floor_y := (floorDraw : ℚ) }
        .ok { s1 with pipes := s1.pipes ++ cfg.pipes.map (mkLevelPipe s1.floor_y) }
  | none =>
      let min_floor : ℤ := (3 * s0.screen_height).fdiv 4
      if min_floor > s0.screen_height then .error s0
      else
        let s1 := { s0 with floor_y := (floorDraw : ℚ) }
        .ok { s1 with pipes := s1.pipes ++ cfg.pipes.map (mkLevelPipe s1.floor_y) }

/-- The `Pilot` record of `flappy_bird_sim.py` (lines 6-23). -/
structure FBPilot where
  x_pos : ℚ
  y_pos : ℚ
  height : ℚ
  width : ℚ
  gravity : ℚ
  jump_velocity : ℚ
  velocity : ℚ
  deriving DecidableEq

/-- The `Pipe` record of `flappy_bird_sim.py` (lines 37-49). -/
structure SPipe where
  x_position : ℚ
  top_pipe : ℚ
  bottom_pipe : ℚ
  deriving DecidableEq

/-- `Pipe.__init__` of `flappy_bird_sim.py` (lines 38-45):
`top = center - height // 2`, `bottom = center + height // 2`. -/
def mkSPipe (x_position : ℚ) (gap_y_center gap_height : ℤ) : SPipe where
  x_position := x_position
  top_pipe := ((gap_y_center - gap_height.fdiv 2 : ℤ) : ℚ)
  bottom_pipe := ((gap_y_center + gap_height.fdiv 2 : ℤ) : ℚ)

/-- The state of `FlappyBirdGame` (`flappy_bird_sim.py` lines 60-74). -/
structure FBGame where
  screen_width : ℤ
  screen_height : ℤ
  pipe_speed : ℚ
  gravity : ℚ
  pilot : FBPilot
  pipes : List SPipe
  score : ℕ
  frame_count : ℕ
  game_over : Bool
  deriving DecidableEq

/-- `FlappyBirdGame()` with the Python default arguments
(`flappy_bird_sim.py` lines 61-82); `g1 … g4` are the four random
gap-center draws of `_generate_initial_pipes`, which places pipes at
`screen_width + i*250` with the default gap height 150. -/
def mkFBGame (g1 g2 g3 g4 : ℤ) : FBGame where
  screen_width := 800
  screen_height := 600
  pipe_speed := 3
  gravity := 1/2
  pilot :=
    { x_pos := 100, y_pos := 300, height := 30, width := 30
      gravity := 1/2, jump_velocity := -8, velocity := 0 }
  pipes := [mkSPipe 800 g1 150, mkSPipe 1050 g2 150,
            mkSPipe 1300 g3 150, mkSPipe 1550 g4 150]
  score := 0
  frame_count := 0
  game_over := false

/-- `FlappyBirdGame.check_collision` (`flappy_bird_sim.py` lines 103-120):
here the ceiling/floor bounds are `0` and `screen_height`. -/
def FBGame.check_collision (s : FBGame) : Bool :=
  if s.pilot.y_pos ≤ 0 ∨ s.pilot.y_pos + s.pilot.height ≥ (s.screen_height : ℚ) then true
  else s.pipes.any fun (pipe : SPipe) =>
    decide ((pipe.x_position < s.pilot.x_pos + s.pilot.width ∧
             pipe.x_position + 50 > s.pilot.x_pos) ∧
            (s.pilot.y_pos < pipe.top_pipe ∨
             s.pilot.y_pos + s.pilot.height > pipe.bottom_pipe))

/-- `FlappyBirdGame.update` (`flappy_bird_sim.py` lines 122-162).
`gapDraw` is the random gap-center draw used if a pipe is spawned this
tick (spawned pipes use the default gap height 150). -/
def FBGame.update (s : FBGame) (should_jump : Bool) (gapDraw : ℤ) : FBGame :=
  if s.game_over then s
  else
    let s1 := { s with frame_count := s.frame_count + 1 }
    let s2 := if should_jump then
                { s1 with pilot := { s1.pilot with velocity := s1.pilot.jump_velocity } }
              else s1
    let v := s2.pilot.velocity + s2.gravity
    let s3 := { s2 with pilot := { s2.pilot with velocity := v, y_pos := s2.pilot.y_pos + v } }
    let movedPipes := s3.pipes.map (fun (pipe : SPipe) => { pipe with x_position := pipe.x_position - s3.pipe_speed })
    let keptPipes := movedPipes.filter (fun (pipe : SPipe) => pipe.x_position > -100)
    let s4 : FBGame := { s3 with pipes := keptPipes }
    let s5 : FBGame :=
      if s4.pipes.length < 4 then
        let new_x : ℚ :=
          match s4.pipes.getLast? with
          | some last_pipe => last_pipe.x_position + 250
          | none => (s4.screen_width : ℚ)
        { s4 with pipes := s4.pipes ++ [mkSPipe new_x gapDraw 150] }
      else s4
    let s6 := { s5 with score :=
      s5.score + s5.pipes.countP (fun (pipe : SPipe) => decide (pipe.x_position + 50 = s5.pilot.x_pos)) }
    if s6.check_collision then { s6 with game_over := true } else s6

/-- Iterated `FlappyBirdGame.update` over per-tick (decision, gap draw)
pairs. -/
def FBGame.ticks (s : FBGame) : List (Bool × ℤ) → FBGame
  | [] => s
  | dg :: rest => (s.update dg.1 dg.2).ticks rest

/-- The `pilot` sub-dictionary of a decision snapshot
(`game_engine.py` lines 93-101). -/
structure PilotSnap where
  xPos : ℚ
  yPos : ℚ
  height : ℚ
  width : ℚ
  gravity : ℚ
  jumpVelocity : ℚ
  velocity : ℚ
  deriving DecidableEq

/-- A pipe as seen by the decision policy: `topPipe`, `bottomPipe`,
`xPosition`. -/
structure PipeSnap where
  topPipe : ℚ
  bottomPipe : ℚ
  xPosition : ℚ
  deriving DecidableEq

/-- The decision snapshot consumed by `shouldJump`
(`game_engine.py` lines 88-107, `ai_controller.py` lines 13-25). -/
structure Snapshot where
  pilot : PilotSnap
  pipeSpeed : ℚ
  currentPipe : Option PipeSnap
  pipeArray : List PipeSnap
  gravity : ℚ
  floor : ℚ
  deriving DecidableEq

/-- `safety_margin` (`ai_controller.py` line 34):
`max(height*0.1, width*0.1, 5)`. -/
def safetyMargin (gs : Snapshot) : ℚ :=
  max (gs.pilot.height * (1/10)) (max (gs.pilot.width * (1/10)) 5)

/-- `pilot_bottom_next_frame` (`ai_controller.py` lines 41-43): the
pilot's bottom edge next tick assuming no impulse. -/
def nextBottom (gs : Snapshot) : ℚ :=
  gs.pilot.yPos + (gs.pilot.velocity + gs.gravity) + gs.pilot.height

/-- The guard of priority rule 1, floor safety
(`ai_controller.py` line 45). -/
def rule1Fires (gs : Snapshot) : Prop :=
  nextBottom gs + safetyMargin gs ≥ gs.floor

instance (gs : Snapshot) : Decidable (rule1Fires gs) := by
  unfold rule1Fires; infer_instance

/-- The 5-frame gravity-only free-fall prediction of priority rule 2
(`ai_controller.py` lines 65-73), returning the projected bottom edge. -/
def predictedBottom5 (gs : Snapshot) : ℚ :=
  let vy := (List.range 5).foldl
    (fun acc _ => (acc.1 + gs.gravity, acc.2 + (acc.1 + gs.gravity)))
    (gs.pilot.velocity, gs.pilot.yPos)
  vy.2 + gs.pilot.height

/-- The guard of priority rule 2, near-obstacle emergency
(`ai_controller.py` lines 54-77): pipe within (0, 150) ahead and the
5-frame projected bottom + 5 reaches the gap bottom. -/
def rule2Fires (gs : Snapshot) (pipe : PipeSnap) : Prop :=
  (0 < pipe.xPosition - gs.pilot.xPos ∧ pipe.xPosition - gs.pilot.xPos < 150) ∧
  predictedBottom5 gs + 5 ≥ pipe.bottomPipe

instance (gs : Snapshot) (pipe : PipeSnap) : Decidable (rule2Fires gs pipe) := by
  unfold rule2Fires; infer_instance

/-- The apex-strategy minimum altitude (`ai_controller.py` lines
111-119): `target_y = gap_bottom - gap_height*0.75`, plus the hardcoded
`apex_height = 64`. -/
def minimumY (pipe : PipeSnap) : ℚ :=
  (pipe.bottomPipe - (pipe.bottomPipe - pipe.topPipe) * (3/4)) + 64

/-- `shouldJump` (`ai_controller.py` lines 6-161). -/
def shouldJump (gs : Snapshot) : Bool :=
  if rule1Fires gs then true
  else
    match gs.currentPipe with
    | none => false
    | some pipe =>
      if rule2Fires gs pipe then true
      else
        let gap_bottom := pipe.bottomPipe
        let gap_center := (pipe.topPipe + pipe.bottomPipe) / 2
        if gap_center ≤ 300 then
          if minimumY pipe ≥ gs.floor - 20 then
            if nextBottom gs + safetyMargin gs ≥ gap_bottom then true else false
          else
            if gs.pilot.yPos ≥ minimumY pipe then true else false
        else
          if nextBottom gs + safetyMargin gs ≥ gap_bottom then true else false

/-- The set of indices (counting from `i`) of pipes in `l` whose trailing
edge `xPosition + 50` is strictly behind the pilot's `px` — the pipes the
crediting loop of `update_score` regards as passed. -/
def clearedFrom (px : ℚ) : List Pipe → ℕ → Finset ℕ
  | [], _ => ∅
  | pipe :: rest, i =>
      (if pipe.xPosition + 50 < px then {i} else ∅) ∪ clearedFrom px rest (i + 1)

/-- The moved copy of the pipe list built inside `GameEngine.step_pre`. -/
def movedPipes (s : GameEngine) : List Pipe :=
  s.pipes.map (fun pipe => { pipe with xPosition := pipe.xPosition - s.pipe_speed })

/-- The shape invariant of a running `FlappyBirdGame` track: four pipes,
consecutive x-gaps of exactly 250, the leading pipe not yet retired, and
the engine's pipe speed 3. -/
def FBInv (s : FBGame) : Prop :=
  s.pipe_speed = 3 ∧
  ∃ a b c d : SPipe, s.pipes = [a, b, c, d] ∧
    b.x_position = a.x_position + 250 ∧
    c.x_position = b.x_position + 250 ∧
    d.x_position = c.x_position + 250 ∧
    -100 < a.x_position

/-- The moved copy of one sim pipe. -/
def mvPipe (sp : ℚ) (pipe : SPipe) : SPipe :=
  { pipe with x_position := pipe.x_position - sp }

/-- The apex rise as the spec states it (spec §4.6:
`apexRise = jumpImpulse² / (2·gravity)`), for comparison with the
hardcoded `apex_height = 64` of `ai_controller.py` line 115. -/
def specApexRise (gs : Snapshot) : ℚ :=
  gs.pilot.jumpVelocity ^ 2 / (2 * gs.gravity)

/-- The minimum altitude as the spec states it:
`targetY + apexRise` with the parametric apex rise. -/
def specMinimumY (gs : Snapshot) (pipe : PipeSnap) : ℚ :=
  (pipe.bottomPipe - (pipe.bottomPipe - pipe.topPipe) * (3/4)) + specApexRise gs

/-- A terminal engine state: the default engine with `game_over` set. -/
def engTerm : GameEngine := { defaultEngine with game_over := true }

/-- The default engine after loading a one-pipe level (pipe at x=400,
gap 225..375) onto a floor drawn at 500. -/
def engSimple : GameEngine :=
  { defaultEngine with
    floor_y := 500
    pipes := [{ xPosition := 400, topPipe := 225, bottomPipe := 375 }] }

/-- Snapshot of the spec §8 floor-rule test: pilot at
`floor − height − 1` with zero velocity. -/
def gsFloorW : Snapshot where
  pilot :=
    { xPos := 100, yPos := 469, height := 30, width := 30
      gravity := 1/2, jumpVelocity := -8, velocity := 0 }
  pipeSpeed := 3
  currentPipe := none
  pipeArray := []
  gravity := 1/2
  floor := 500

/-- The spec §8 apex-rule pipe: gap center 150, gap height 150, well
ahead of the pilot. -/
def apexPipeW : PipeSnap := { topPipe := 75, bottomPipe := 225, xPosition := 400 }

/-- Snapshot of the spec §8 apex-rule test at a given pilot altitude,
with the floor far away. -/
def gsApexW (y : ℚ) : Snapshot where
  pilot :=
    { xPos := 100, yPos := y, height := 30, width := 30
      gravity := 1/2, jumpVelocity := -8, velocity := 0 }
  pipeSpeed := 3
  currentPipe := some apexPipeW
  pipeArray := [apexPipeW]
  gravity := 1/2
  floor := 100000

/-- The target pipe of the apex-formula counterexample. -/
def pipeCx3 : PipeSnap := { topPipe := 75, bottomPipe := 225, xPosition := 500 }

/-- Counterexample snapshot for the parametric apex-rise formula:
gravity 1 instead of 1/2, pilot at y = 150, floor far away, target pipe
400 ahead (so rules 1 and 2 cannot fire). -/
def gsCx3 : Snapshot where
  pilot :=
    { xPos := 100, yPos := 150, height := 30, width := 30
      gravity := 1, jumpVelocity := -8, velocity := 0 }
  pipeSpeed := 3
  currentPipe := some pipeCx3
  pipeArray := [pipeCx3]
  gravity := 1
  floor := 100000

/-- A running sim state whose leading pipe sits at x = 51: on the next
tick its trailing edge (101 → 98) passes the pilot's x = 100 without
ever satisfying the exact-equality crediting test `x + 50 == 100`. -/
def fbCx : FBGame :=
  { mkFBGame 300 300 300 300 with
    pipes := [mkSPipe 51 300 150, mkSPipe 301 300 150,
              mkSPipe 551 300 150, mkSPipe 801 300 150] }

/-- Two-pipe level (pipes at x = 0 and x = 10, both already behind the
pilot at load); used to overshoot the per-tick score bound. -/
def cfgTwoBehind : LevelConfig :=
  { floorRange := some (500, 500),
    pipes := [{ xPosition := 0, gapCenter := 300, gapHeight := 150 },
              { xPosition := 10, gapCenter := 300, gapHeight := 150 }] }

/-- Level whose first pipe's gap bottom (495) exceeds `floor − 10`
(490) without exceeding the floor (500), plus an odd gap height. -/
def cfgClip : LevelConfig :=
  { floorRange := some (500, 500),
    pipes := [{ xPosition := 400, gapCenter := 420, gapHeight := 150 },
              { xPosition := 700, gapCenter := 300, gapHeight := 151 }] }

/-- A clipped-case level: gap bottom 555 exceeds the floor 500. -/
def cfgClipW : LevelConfig :=
  { floorRange := some (500, 500),
    pipes := [{ xPosition := 400, gapCenter := 480, gapHeight := 150 }] }

/-- One-pipe level for the track-length counterexample. -/
def cfgOnePipe : LevelConfig :=
  { floorRange := some (500, 500),
    pipes := [{ xPosition := 400, gapCenter := 300, gapHeight := 150 }] }

/-- Level with a single pipe already past the retirement threshold. -/
def cfgBehindFar : LevelConfig :=
  { floorRange := some (500, 500),
    pipes := [{ xPosition := -150, gapCenter := 300, gapHeight := 150 }] }

/-- Level descriptor with an inverted floor range (min 600 > max 500). -/
def cfgBadRange : LevelConfig := { floorRange := some (600, 500), pipes := [] }

/-- Level descriptor with `gapHeight = 0` (a degenerate gap). -/
def cfgZeroGap : LevelConfig :=
  { floorRange := some (500, 500),
    pipes := [{ xPosition := 400, gapCenter := 300, gapHeight := 0 }] }

/-- A previously running instance (loaded level, some progress). -/
def engPrev : GameEngine :=
  { defaultEngine with
    floor_y := 500
    pipes := [{ xPosition := 400, topPipe := 225, bottomPipe := 375 }]
    score := 5
    frame_count := 7 }

/-- A running sim instance with arbitrary gap draws. -/
def fbRun : FBGame := mkFBGame 300 310 320 330

/-- A terminal sim instance. -/
def fbTerm : FBGame := { fbRun with game_over := true }

lemma mem_clearedFrom {px : ℚ} :
    ∀ {l : List Pipe} {i j : ℕ},
      j ∈ clearedFrom px l i ↔
        i ≤ j ∧ ∃ pipe, l.get? (j - i) = some pipe ∧ pipe.xPosition + 50 < px := by
  intro l
  induction l with
  | nil => intro i j; simp [clearedFrom]
  | cons p t ih =>
    intro i j
    constructor
    · intro hj
      rcases Finset.mem_union.mp hj with hj | hj
      · rcases lt_or_ge (p.xPosition + 50) px with hc | hc
        · rw [if_pos hc] at hj
          rcases Finset.mem_singleton.mp hj with rfl
          exact ⟨le_rfl, p, by simp, hc⟩
        · rw [if_neg (not_lt.mpr hc)] at hj
          exact absurd hj (Finset.not_mem_empty _)
      · rcases ih.mp hj with ⟨hij, pipe, hget, hc⟩
        refine ⟨le_trans (Nat.le_succ i) hij, pipe, ?_, hc⟩
        have h1 : 1 ≤ j - i := Nat.le_sub_of_add_le (by omega)
        have : j - i = (j - (i + 1)) + 1 := by omega
        rw [this]
        simpa using hget
    · rintro ⟨hij, pipe, hget, hc⟩
      rcases Nat.eq_or_lt_of_le hij with rfl | hlt
      · simp only [Nat.sub_self, List.get?] at hget
        rcases Option.some_inj.mp hget with rfl
        exact Finset.mem_union.mpr (Or.inl (by rw [if_pos hc]; exact Finset.mem_singleton_self _))
      · refine Finset.mem_union.mpr (Or.inr (ih.mpr ⟨hlt, pipe, ?_, hc⟩))
        have : j - i = (j - (i + 1)) + 1 := by omega
        rw [this] at hget
        simpa using hget

lemma not_mem_clearedFrom_of_lt {px : ℚ} {l : List Pipe} {i j : ℕ} (h : j < i) :
    j ∉ clearedFrom px l i := fun hj => absurd (mem_clearedFrom.mp hj).1 (by omega)

lemma clearedFrom_card_le (px : ℚ) :
    ∀ (l : List Pipe) (i : ℕ), (clearedFrom px l i).card ≤ l.length := by
  intro l
  induction l with
  | nil => intro i; simp [clearedFrom]
  | cons p t ih =>
    intro i
    calc (clearedFrom px (p :: t) i).card
        ≤ (if p.xPosition + 50 < px then ({i} : Finset ℕ) else ∅).card
            + (clearedFrom px t (i + 1)).card := Finset.card_union_le _ _
      _ ≤ 1 + t.length := by
          gcongr
          · split <;> simp
          · exact ih (i + 1)
      _ = (p :: t).length := by simp [Nat.add_comm]

/-- The crediting loop credits exactly the not-yet-credited passed pipes:
it adds them to the credited set and bumps the score by their number. -/
lemma creditLoop_spec (px : ℚ) :
    ∀ (l : List Pipe) (i sc : ℕ) (ps : Finset ℕ),
      creditLoop px l i (sc, ps) =
        (sc + ((clearedFrom px l i) \ ps).card, ps ∪ clearedFrom px l i) := by
  intro l
  induction l with
  | nil => intro i sc ps; simp [creditLoop, clearedFrom]
  | cons p t ih =>
    intro i sc ps
    have hnotmem : i ∉ clearedFrom px t (i + 1) :=
      not_mem_clearedFrom_of_lt (Nat.lt_succ_self i)
    by_cases hc : p.xPosition + 50 < px
    · by_cases hmem : i ∈ ps
      · have e1 : ({i} ∪ clearedFrom px t (i + 1)) \ ps = clearedFrom px t (i + 1) \ ps := by
          ext j
          simp only [Finset.mem_sdiff, Finset.mem_union, Finset.mem_singleton]
          constructor
          · rintro ⟨rfl | hj, hnp⟩
            · exact absurd hmem hnp
            · exact ⟨hj, hnp⟩
          · rintro ⟨hj, hnp⟩
            exact ⟨Or.inr hj, hnp⟩
        have e2 : ps ∪ ({i} ∪ clearedFrom px t (i + 1)) = ps ∪ clearedFrom px t (i + 1) := by
          ext j
          simp only [Finset.mem_union, Finset.mem_singleton]
          constructor
          · rintro (hj | rfl | hj)
            · exact Or.inl hj
            · exact Or.inl hmem
            · exact Or.inr hj
          · rintro (hj | hj)
            · exact Or.inl hj
            · exact Or.inr (Or.inr hj)
        simp only [creditLoop, clearedFrom, if_pos hc]
        rw [if_neg (fun h => h.2 hmem), ih, e1, e2]
      · have e1 : ({i} ∪ clearedFrom px t (i + 1)) \ ps
            = insert i (clearedFrom px t (i + 1) \ ps) := by
          ext j
          simp only [Finset.mem_sdiff, Finset.mem_union, Finset.mem_singleton,
            Finset.mem_insert]
          constructor
          · rintro ⟨rfl | hj, hnp⟩
            · exact Or.inl rfl
            · exact Or.inr ⟨hj, hnp⟩
          · rintro (rfl | ⟨hj, hnp⟩)
            · exact ⟨Or.inl rfl, hmem⟩
            · exact ⟨Or.inr hj, hnp⟩
        have e2 : clearedFrom px t (i + 1) \ insert i ps = clearedFrom px t (i + 1) \ ps := by
          ext j
          simp only [Finset.mem_sdiff, Finset.mem_insert]
          constructor
          · rintro ⟨hj, hnp⟩
            exact ⟨hj, fun hp => hnp (Or.inr hp)⟩
          · rintro ⟨hj, hnp⟩
            refine ⟨hj, ?_⟩
            rintro (rfl | hp)
            · exact hnotmem hj
            · exact hnp hp
        have e3 : ps ∪ ({i} ∪ clearedFrom px t (i + 1))
            = insert i ps ∪ clearedFrom px t (i + 1) := by
          ext j
          simp only [Finset.mem_union, Finset.mem_singleton, Finset.mem_insert]
          tauto
        have e4 : i ∉ clearedFrom px t (i + 1) \ ps :=
          fun h => hnotmem (Finset.mem_sdiff.mp h).1
        simp only [creditLoop, clearedFrom, if_pos hc]
        rw [if_pos ⟨hc, hmem⟩, ih, e1, e2, e3, Finset.card_insert_of_not_mem e4]
        congr 1
        omega
    · have e0 : (if p.xPosition + 50 < px then ({i} : Finset ℕ) else ∅) = ∅ :=
        if_neg hc
      simp only [creditLoop, clearedFrom, e0, Finset.empty_union]
      rw [if_neg (fun h => hc h.1), ih]

/-- Advancing the track leftwards (nonnegative speed) can only grow the
set of passed pipes. -/
lemma clearedFrom_subset_advance (px sp : ℚ) (hsp : 0 ≤ sp) (l : List Pipe) (i : ℕ) :
    clearedFrom px l i ⊆
      clearedFrom px (l.map (fun p => { p with xPosition := p.xPosition - sp })) i := by
  intro j hj
  rcases mem_clearedFrom.mp hj with ⟨hij, pipe, hget, hc⟩
  refine mem_clearedFrom.mpr ⟨hij, { pipe with xPosition := pipe.xPosition - sp }, ?_, ?_⟩
  · rw [List.get?_map, hget]
    rfl
  · have : pipe.xPosition - sp ≤ pipe.xPosition := by linarith
    calc pipe.xPosition - sp + 50 ≤ pipe.xPosition + 50 := by linarith
      _ < px := hc

/-- Closed form of the pre-collision steps of `GameEngine.update` on a
running instance. -/
lemma step_pre_eq (s : GameEngine) (d : Bool) (h : s.game_over = false) :
    s.step_pre d =
      { s with
        frame_count := s.frame_count + 1
        pilot_velocity := (if d then s.jump_velocity else s.pilot_velocity) + s.gravity
        pilot_y := s.pilot_y + ((if d then s.jump_velocity else s.pilot_velocity) + s.gravity)
        pipes := movedPipes s
        score := s.score + ((clearedFrom s.pilot_x (movedPipes s) 0) \ s.passed_pipes).card
        passed_pipes := s.passed_pipes ∪ clearedFrom s.pilot_x (movedPipes s) 0 } := by
  cases d <;>
    simp [GameEngine.step_pre, GameEngine.jump, GameEngine.update_score, h,
      creditLoop_spec, movedPipes]

lemma update_terminal (s : GameEngine) (d : Bool) (h : s.game_over = true) :
    s.update d = s := by
  simp [GameEngine.update, h]

lemma ticks_terminal (s : GameEngine) (l : List Bool) (h : s.game_over = true) :
    s.ticks l = s := by
  induction l with
  | nil => rfl
  | cons d ds ih =>
    show (s.update d).ticks ds = s
    rw [update_terminal s d h, ih]

lemma update_running (s : GameEngine) (d : Bool) (h : s.game_over = false) :
    s.update d =
      if (s.step_pre d).check_collision then { s.step_pre d with game_over := true }
      else s.step_pre d := by
  simp [GameEngine.update, h]

lemma update_frame (s : GameEngine) (d : Bool) (h : s.game_over = false) :
    (s.update d).frame_count = s.frame_count + 1 := by
  rw [update_running s d h]
  split <;> rw [step_pre_eq s d h]

lemma update_pilot_x (s : GameEngine) (d : Bool) : (s.update d).pilot_x = s.pilot_x := by
  by_cases h : s.game_over = true
  · rw [update_terminal s d h]
  · rw [update_running s d (Bool.not_eq_true _ ▸ h)]
    split <;> rw [step_pre_eq s d (Bool.not_eq_true _ ▸ h)]

lemma update_pipes_length (s : GameEngine) (d : Bool) :
    (s.update d).pipes.length = s.pipes.length := by
  by_cases h : s.game_over = true
  · rw [update_terminal s d h]
  · rw [update_running s d (Bool.not_eq_true _ ▸ h)]
    have hp : (s.step_pre d).pipes = movedPipes s := by
      rw [step_pre_eq s d (Bool.not_eq_true _ ▸ h)]
    split <;> simp [hp, movedPipes]

lemma update_score_val (s : GameEngine) (d : Bool) (h : s.game_over = false) :
    (s.update d).score =
      s.score + ((clearedFrom s.pilot_x (movedPipes s) 0) \ s.passed_pipes).card := by
  rw [update_running s d h]
  split <;> rw [step_pre_eq s d h]

lemma update_passed (s : GameEngine) (d : Bool) (h : s.game_over = false) :
    (s.update d).passed_pipes =
      s.passed_pipes ∪ clearedFrom s.pilot_x (movedPipes s) 0 := by
  rw [update_running s d h]
  split <;> rw [step_pre_eq s d h]

lemma update_pipes_val (s : GameEngine) (d : Bool) (h : s.game_over = false) :
    (s.update d).pipes = movedPipes s := by
  rw [update_running s d h]
  split <;> rw [step_pre_eq s d h]

lemma fb_update_terminal (s : FBGame) (d : Bool) (g : ℤ) (h : s.game_over = true) :
    s.update d g = s := by
  simp [FBGame.update, h]

lemma fb_ticks_terminal (s : FBGame) (l : List (Bool × ℤ)) (h : s.game_over = true) :
    s.ticks l = s := by
  induction l with
  | nil => rfl
  | cons dg rest ih =>
    show (s.update dg.1 dg.2).ticks rest = s
    rw [fb_update_terminal s dg.1 dg.2 h, ih]

lemma fb_update_frame (s : FBGame) (d : Bool) (g : ℤ) (h : s.game_over = false) :
    (s.update d g).frame_count = s.frame_count + 1 := by
  simp [FBGame.update, h, apply_ite FBGame.frame_count]

lemma fbinv_init (g1 g2 g3 g4 : ℤ) : FBInv (mkFBGame g1 g2 g3 g4) := by
  refine ⟨rfl, mkSPipe 800 g1 150, mkSPipe 1050 g2 150,
    mkSPipe 1300 g3 150, mkSPipe 1550 g4 150, rfl, ?_, ?_, ?_, ?_⟩ <;> norm_num [mkSPipe]

lemma fb_update_speed (s : FBGame) (d : Bool) (g : ℤ) :
    (s.update d g).pipe_speed = s.pipe_speed := by
  by_cases h : s.game_over = true
  · rw [fb_update_terminal s d g h]
  · simp [FBGame.update, h, apply_ite FBGame.pipe_speed]

/-- With four pipes whose last three survive retirement, one tick leaves
either all four moved pipes (leader not yet retired) or the three moved
survivors plus a fresh pipe 250 ahead of the last. -/
lemma fb_update_pipes_closed (s : FBGame) (d : Bool) (g : ℤ)
    (hgo : s.game_over = false) (a b c e : SPipe) (hpipes : s.pipes = [a, b, c, e])
    (hkb : (-100 : ℚ) < b.x_position - s.pipe_speed)
    (hkc : (-100 : ℚ) < c.x_position - s.pipe_speed)
    (hkd : (-100 : ℚ) < e.x_position - s.pipe_speed) :
    (s.update d g).pipes =
      if (-100 : ℚ) < a.x_position - s.pipe_speed then
        [mvPipe s.pipe_speed a, mvPipe s.pipe_speed b,
         mvPipe s.pipe_speed c, mvPipe s.pipe_speed e]
      else
        [mvPipe s.pipe_speed b, mvPipe s.pipe_speed c, mvPipe s.pipe_speed e,
         mkSPipe (e.x_position - s.pipe_speed + 250) g 150] := by
  rw [FBGame.update, if_neg (by simp [hgo])]
  by_cases hka : (-100 : ℚ) < a.x_position - s.pipe_speed
  · rw [if_pos hka]
    cases d <;>
      simp [hpipes, List.filter, decide_eq_true_eq, hka, hkb, hkc, hkd, mvPipe] <;>
      split <;> rfl
  · rw [if_neg hka]
    cases d <;>
      simp [hpipes, List.filter, decide_eq_true_eq, hka, hkb, hkc, hkd, mvPipe, mkSPipe] <;>
      split <;> rfl

lemma fbinv_update (s : FBGame) (d : Bool) (g : ℤ) (h : FBInv s) :
    FBInv (s.update d g) := by
  obtain ⟨hsp, a, b, c, e, hpipes, hb, hc, hd, ha⟩ := h
  by_cases hgo : s.game_over = true
  · rw [fb_update_terminal s d g hgo]
    exact ⟨hsp, a, b, c, e, hpipes, hb, hc, hd, ha⟩
  · replace hgo : s.game_over = false := Bool.not_eq_true _ ▸ hgo
    have hkb : (-100 : ℚ) < b.x_position - s.pipe_speed := by rw [hsp]; rw [hb]; linarith
    have hkc : (-100 : ℚ) < c.x_position - s.pipe_speed := by
      rw [hsp]; rw [hc, hb]; linarith
    have hkd : (-100 : ℚ) < e.x_position - s.pipe_speed := by
      rw [hsp]; rw [hd, hc, hb]; linarith
    have hpc := fb_update_pipes_closed s d g hgo a b c e hpipes hkb hkc hkd
    refine ⟨by rw [fb_update_speed, hsp], ?_⟩
    by_cases hka : (-100 : ℚ) < a.x_position - s.pipe_speed
    · rw [if_pos hka] at hpc
      refine ⟨mvPipe s.pipe_speed a, mvPipe s.pipe_speed b,
        mvPipe s.pipe_speed c, mvPipe s.pipe_speed e, hpc, ?_, ?_, ?_, ?_⟩ <;>
        simp [mvPipe, hb, hc, hd, hka] <;> ring
    · rw [if_neg hka] at hpc
      refine ⟨mvPipe s.pipe_speed b, mvPipe s.pipe_speed c, mvPipe s.pipe_speed e,
        mkSPipe (e.x_position - s.pipe_speed + 250) g 150, hpc, ?_, ?_, ?_, ?_⟩
      · simp [mvPipe, hc]; ring
      · simp [mvPipe, hd]; ring
      · simp [mvPipe, mkSPipe]
      · simpa [mvPipe] using hkb

lemma fbinv_pipes_length (s : FBGame) (h : FBInv s) : s.pipes.length = 4 := by
  obtain ⟨-, a, b, c, e, hpipes, -⟩ := h
  rw [hpipes]
  rfl

lemma fbinv_ticks (s : FBGame) (l : List (Bool × ℤ)) (h : FBInv s) :
    FBInv (s.ticks l) := by
  induction l generalizing s with
  | nil => exact h
  | cons dg rest ih =>
    show FBInv ((s.update dg.1 dg.2).ticks rest)
    exact ih _ (fbinv_update s dg.1 dg.2 h)

/-- C1: once `game_over` is set, a tick (and any sequence of ticks, for
any decisions) leaves the state completely unchanged — frame frozen,
score, agent, and track included — and `game_over` stays true; on a
running instance one tick increments the frame counter by exactly 1.
Proved for both engines (`GameEngine.update`,
`FlappyBirdGame.update`). -/
theorem terminal_frozen_and_frame_increments :
    ∀ (s : GameEngine) (d : Bool) (l : List Bool) (fb : FBGame) (d2 : Bool) (g : ℤ)
      (gl : List (Bool × ℤ)),
      (s.game_over = true → s.update d = s ∧ s.ticks l = s) ∧
      (s.game_over = false → (s.update d).frame_count = s.frame_count + 1) ∧
      (fb.game_over = true → fb.update d2 g = fb ∧ fb.ticks gl = fb) ∧
      (fb.game_over = false → (fb.update d2 g).frame_count = fb.frame_count + 1) := by
  intro s d l fb d2 g gl
  exact ⟨fun h => ⟨update_terminal s d h, ticks_terminal s l h⟩,
    update_frame s d,
    fun h => ⟨fb_update_terminal fb d2 g h, fb_ticks_terminal fb gl h⟩,
    fb_update_frame fb d2 g⟩

/-- Witness for C1 at concrete terminal and running instances. -/
theorem terminal_frozen_and_frame_increments_witness :
    (engTerm.game_over = true ∧ engTerm.ticks [true, false] = engTerm) ∧
    (defaultEngine.game_over = false ∧
      (defaultEngine.update true).frame_count = defaultEngine.frame_count + 1) ∧
    (fbTerm.game_over = true ∧ fbTerm.ticks [(false, 300)] = fbTerm) ∧
    (fbRun.game_over = false ∧
      (fbRun.update true 300).frame_count = fbRun.frame_count + 1) := by
  have h := terminal_frozen_and_frame_increments engTerm true [true, false]
    fbTerm false 300 [(false, 300)]
  have h2 := terminal_frozen_and_frame_increments defaultEngine true [] fbRun true 300 []
  exact ⟨⟨rfl, (h.1 rfl).2⟩, ⟨rfl, h2.2.1 rfl⟩,
    ⟨rfl, (h.2.2.1 rfl).2⟩, ⟨rfl, h2.2.2.2 rfl⟩⟩

/-- C2: whenever the predicted next-tick bottom edge without impulse
(`y + (vel + gravity) + height`) plus the safety margin
(`max(0.1·height, 0.1·width, 5)`) reaches the floor, `shouldJump`
returns true — for every snapshot, whatever the obstacle list or the
presence of a target obstacle. -/
theorem floor_safety_always_jumps (gs : Snapshot)
    (h : gs.pilot.yPos + (gs.pilot.velocity + gs.gravity) + gs.pilot.height
          + max (gs.pilot.height * (1/10)) (max (gs.pilot.width * (1/10)) 5) ≥ gs.floor) :
    shouldJump gs = true := by
  have h1 : rule1Fires gs := h
  unfold shouldJump
  rw [if_pos h1]

/-- Witness for C2 at the spec §8 floor-rule snapshot
(`y = floor − height − 1`, zero velocity, gravity 1/2). -/
theorem floor_safety_always_jumps_witness :
    (gsFloorW.pilot.yPos + (gsFloorW.pilot.velocity + gsFloorW.gravity) + gsFloorW.pilot.height
        + max (gsFloorW.pilot.height * (1/10)) (max (gsFloorW.pilot.width * (1/10)) 5)
       ≥ gsFloorW.floor) ∧
    shouldJump gsFloorW = true :=
  ⟨of_decide_eq_true (by with_unfolding_all rfl),
   floor_safety_always_jumps gsFloorW (of_decide_eq_true (by with_unfolding_all rfl))⟩

/-- C4: the collision predicate is true exactly on ceiling contact
(`y ≤ 0`), floor contact (`y + height ≥ floor_y`), or a horizontally
overlapping pipe with the agent outside its gap; and on a running state
the tick's final `game_over` equals the predicate evaluated on the
post-integration, post-advance state. -/
theorem collision_characterization :
    ∀ (s : GameEngine) (d : Bool),
      (s.check_collision = true ↔
        (s.pilot_y ≤ 0 ∨ s.pilot_y + s.pilot_height ≥ s.floor_y ∨
          ∃ pipe ∈ s.pipes,
            (pipe.xPosition < s.pilot_x + s.pilot_width ∧
              pipe.xPosition + 50 > s.pilot_x) ∧
            (s.pilot_y < pipe.topPipe ∨ s.pilot_y + s.pilot_height > pipe.bottomPipe))) ∧
      (s.game_over = false →
        (s.update d).game_over = (s.step_pre d).check_collision) := by
  intro s d
  constructor
  · by_cases h1 : s.pilot_y ≤ 0
    · simp [GameEngine.check_collision, h1]
    · by_cases h2 : s.pilot_y + s.pilot_height ≥ s.floor_y
      · simp [GameEngine.check_collision, h1, h2]
      · simp [GameEngine.check_collision, h1, h2, List.any_eq_true]
  · intro h
    rw [update_running s d h]
    split
    · next hcol => exact hcol.symm
    · next hcol =>
        rw [Bool.not_eq_true] at hcol
        rw [hcol, step_pre_eq s d h]
        exact h

/-- Witness for C4's conditional part at a concrete running state. -/
theorem collision_characterization_witness :
    defaultEngine.game_over = false ∧
    (defaultEngine.update false).game_over = (defaultEngine.step_pre false).check_collision :=
  ⟨rfl, (collision_characterization defaultEngine false).2 rfl⟩

/-- C10: `reset` puts the agent back at `screen_height // 2` with zero
velocity, zeroes score and frame, clears `game_over`, empties the track
and the credited set, and leaves the floor, screen dimensions, pipe
speed, gravity and autopilot mode untouched. -/
theorem reset_effect :
    ∀ s : GameEngine,
      s.reset =
        { s with
          pilot_y := ((s.screen_height.fdiv 2 : ℤ) : ℚ)
          pilot_velocity := 0
          pipes := []
          score := 0
          frame_count := 0
          game_over := false
          passed_pipes := ∅ } ∧
      s.reset.floor_y = s.floor_y ∧
      s.reset.screen_width = s.screen_width ∧
      s.reset.screen_height = s.screen_height ∧
      s.reset.pipe_speed = s.pipe_speed ∧
      s.reset.gravity = s.gravity ∧
      s.reset.autopilot = s.autopilot ∧
      s.reset.pipes = [] :=
  fun _ => ⟨rfl, rfl, rfl, rfl, rfl, rfl, rfl, rfl⟩

/-- Counterexample to C3 as stated: at gravity 1 (snapshot field the
policy reads), the spec's parametric `apexRise = jumpImpulse²/(2·gravity)`
gives 32, so the claimed `minimumY` is 144.5 and the claim demands a jump
at y = 150; the code's hardcoded `apex_height = 64` gives 176.5, and
`shouldJump` returns false — all side conditions of the claim hold. -/
theorem apex_rise_formula_cx :
    gsCx3.currentPipe = some pipeCx3 ∧
    (pipeCx3.topPipe + pipeCx3.bottomPipe) / 2 ≤ 300 ∧
    ¬ rule1Fires gsCx3 ∧
    ¬ rule2Fires gsCx3 pipeCx3 ∧
    specMinimumY gsCx3 pipeCx3 < gsCx3.floor - 20 ∧
    gsCx3.pilot.yPos ≥ specMinimumY gsCx3 pipeCx3 ∧
    shouldJump gsCx3 = false :=
  ⟨rfl,
   of_decide_eq_true (by with_unfolding_all rfl),
   of_decide_eq_false (by with_unfolding_all rfl),
   of_decide_eq_false (by with_unfolding_all rfl),
   of_decide_eq_true (by with_unfolding_all rfl),
   of_decide_eq_true (by with_unfolding_all rfl),
   by with_unfolding_all rfl⟩

/-- C3 amended: the code hardcodes the apex rise to 64 (the value of
`jumpImpulse²/(2·gravity)` only at the defaults −8 and 1/2); with a
target pipe whose gap center is at or above the 300 midline, when rules
1 and 2 do not fire and the code's `minimumY` is below `floor − 20`,
`shouldJump` is true iff the pilot has sunk to `minimumY`, where
`minimumY = (gapBottom − 0.75·gapHeight) + 64`. -/
theorem apex_rule_constant_rise (gs : Snapshot) (pipe : PipeSnap)
    (hp : gs.currentPipe = some pipe)
    (h1 : ¬ rule1Fires gs) (h2 : ¬ rule2Fires gs pipe)
    (hc : (pipe.topPipe + pipe.bottomPipe) / 2 ≤ 300)
    (hf : (pipe.bottomPipe - (pipe.bottomPipe - pipe.topPipe) * (3/4)) + 64 < gs.floor - 20) :
    (shouldJump gs = true ↔
      gs.pilot.yPos ≥ (pipe.bottomPipe - (pipe.bottomPipe - pipe.topPipe) * (3/4)) + 64) := by
  have hf2 : minimumY pipe < gs.floor - 20 := hf
  simp only [shouldJump, hp]
  rw [if_neg h1, if_neg h2, if_pos hc, if_neg (not_le.mpr hf2)]
  simp only [minimumY]
  by_cases hy : gs.pilot.yPos ≥ pipe.bottomPipe - (pipe.bottomPipe - pipe.topPipe) * (3/4) + 64
  · simp [hy]
  · simp [hy]

/-- Witness for the amended C3 at the spec §8 instance: gap 75..225,
`minimumY = 176.5`; at y = 200 the policy jumps, at y = 100 it does
not. -/
theorem apex_rule_constant_rise_witness :
    shouldJump (gsApexW 200) = true ∧ shouldJump (gsApexW 100) = false := by
  constructor
  · exact (apex_rule_constant_rise (gsApexW 200) apexPipeW rfl
      (of_decide_eq_false (by with_unfolding_all rfl))
      (of_decide_eq_false (by with_unfolding_all rfl))
      (of_decide_eq_true (by with_unfolding_all rfl))
      (of_decide_eq_true (by with_unfolding_all rfl))).mpr
      (of_decide_eq_true (by with_unfolding_all rfl))
  · have h := apex_rule_constant_rise (gsApexW 100) apexPipeW rfl
      (of_decide_eq_false (by with_unfolding_all rfl))
      (of_decide_eq_false (by with_unfolding_all rfl))
      (of_decide_eq_true (by with_unfolding_all rfl))
      (of_decide_eq_true (by with_unfolding_all rfl))
    rw [Bool.eq_false_iff]
    intro ht
    exact absurd (h.mp ht) (of_decide_eq_false (by with_unfolding_all rfl))

/-- Counterexample to C5 as stated: in `FlappyBirdGame.update` the
score test is the exact equality `pipe.x + 50 == pilot.x`, so a pipe
moving from x = 51 to x = 48 has its trailing edge (98) pass the
pilot's x (100) without ever being credited: after the tick the leading
pipe is cleared and the score is still 0, on a live instance. -/
theorem cleared_pipe_never_credited_cx :
    (fbCx.update false 300).pipes.map (fun (pipe : SPipe) => pipe.x_position)
        = [48, 298, 548, 798] ∧
    ((48 : ℚ) + 50 < (fbCx.update false 300).pilot.x_pos) ∧
    (fbCx.update false 300).score = 0 ∧
    (fbCx.update false 300).game_over = false :=
  ⟨by with_unfolding_all rfl,
   of_decide_eq_true (by with_unfolding_all rfl),
   by with_unfolding_all rfl,
   by with_unfolding_all rfl⟩

/-- C5 amended: in `GameEngine`, crediting is keyed by the pipe's list
index guarded by the `passed_pipes` set; a tick never reorders, adds or
removes pipes, so the index is a stable identity during a run, and if
the credited set is exactly the cleared set (as at a fresh load), the
tick keeps it so and keeps `score` equal to the number of cleared
pipes — each cleared pipe is credited exactly once and never again. -/
theorem score_credits_each_cleared_pipe_once (s : GameEngine) (d : Bool)
    (hgo : s.game_over = false) (hsp : 0 ≤ s.pipe_speed)
    (hpass : s.passed_pipes = clearedFrom s.pilot_x s.pipes 0)
    (hscore : s.score = s.passed_pipes.card) :
    (s.update d).pipes.length = s.pipes.length ∧
    (s.update d).passed_pipes = clearedFrom (s.update d).pilot_x (s.update d).pipes 0 ∧
    (s.update d).score = ((s.update d).passed_pipes).card := by
  have hmono : clearedFrom s.pilot_x s.pipes 0 ⊆ clearedFrom s.pilot_x (movedPipes s) 0 :=
    clearedFrom_subset_advance s.pilot_x s.pipe_speed hsp s.pipes 0
  refine ⟨update_pipes_length s d, ?_, ?_⟩
  · rw [update_passed s d hgo, update_pilot_x s d, update_pipes_val s d hgo, hpass]
    exact Finset.union_eq_right.mpr hmono
  · rw [update_score_val s d hgo, update_passed s d hgo, hpass, hscore, hpass,
      Finset.union_eq_right.mpr hmono]
    rw [Nat.add_comm]
    exact Finset.card_sdiff_add_card_eq_card hmono

/-- Witness for the amended C5 at a freshly loaded one-pipe level. -/
theorem score_credits_each_cleared_pipe_once_witness :
    (engSimple.game_over = false ∧ (0 : ℚ) ≤ engSimple.pipe_speed ∧
      engSimple.passed_pipes = clearedFrom engSimple.pilot_x engSimple.pipes 0 ∧
      engSimple.score = engSimple.passed_pipes.card) ∧
    ((engSimple.update false).pipes.length = engSimple.pipes.length ∧
      (engSimple.update false).passed_pipes
        = clearedFrom (engSimple.update false).pilot_x (engSimple.update false).pipes 0 ∧
      (engSimple.update false).score = ((engSimple.update false).passed_pipes).card) := by
  refine ⟨⟨rfl, of_decide_eq_true (by with_unfolding_all rfl),
    by with_unfolding_all rfl, by with_unfolding_all rfl⟩, ?_⟩
  exact score_credits_each_cleared_pipe_once engSimple false rfl
    (of_decide_eq_true (by with_unfolding_all rfl))
    (by with_unfolding_all rfl) (by with_unfolding_all rfl)

/-- Counterexample to C6 as stated: loading a level whose two pipes
start at x = 0 and x = 10 (both already behind the pilot) yields a
reachable state whose very next tick credits both, raising the score
from 0 to 2 — more than 1 in a single tick. -/
theorem score_jump_two_cx :
    Except.map (fun s => (s.score, (s.update false).score, (s.update false).game_over))
        (defaultEngine.load_level cfgTwoBehind 500) = .ok (0, 2, false) := by
  with_unfolding_all rfl

/-- C6 amended: score never decreases, and a single tick adds at most
the number of pipes; it adds at most 1 when every already-cleared pipe
is credited and pipe x positions are pairwise at least `pipe_speed`
apart (so at most one trailing edge can cross the pilot per tick). -/
theorem score_monotone_and_bounded (s : GameEngine) (d : Bool) :
    s.score ≤ (s.update d).score ∧
    (s.update d).score ≤ s.score + s.pipes.length ∧
    (clearedFrom s.pilot_x s.pipes 0 ⊆ s.passed_pipes →
      s.pipes.Pairwise (fun p q => s.pipe_speed ≤ |p.xPosition - q.xPosition|) →
      (s.update d).score ≤ s.score + 1) := by
  by_cases hgo : s.game_over = true
  · rw [update_terminal s d hgo]
    exact ⟨le_rfl, Nat.le_add_right _ _, fun _ _ => Nat.le_succ_of_le le_rfl⟩
  · replace hgo : s.game_over = false := Bool.not_eq_true _ ▸ hgo
    rw [update_score_val s d hgo]
    refine ⟨Nat.le_add_right _ _, ?_, ?_⟩
    · have h1 : ((clearedFrom s.pilot_x (movedPipes s) 0) \ s.passed_pipes).card
          ≤ (clearedFrom s.pilot_x (movedPipes s) 0).card :=
        Finset.card_le_card Finset.sdiff_subset
      have h2 : (clearedFrom s.pilot_x (movedPipes s) 0).card ≤ (movedPipes s).length :=
        clearedFrom_card_le _ _ _
      have h3 : (movedPipes s).length = s.pipes.length := by simp [movedPipes]
      omega
    · intro hsub hpair
      have hcard : ((clearedFrom s.pilot_x (movedPipes s) 0) \ s.passed_pipes).card ≤ 1 := by
        rw [Finset.card_le_one]
        intro j1 hj1 j2 hj2
        obtain ⟨hj1c, hj1p⟩ := Finset.mem_sdiff.mp hj1
        obtain ⟨hj2c, hj2p⟩ := Finset.mem_sdiff.mp hj2
        obtain ⟨-, q1, hget1, hlt1⟩ := mem_clearedFrom.mp hj1c
        obtain ⟨-, q2, hget2, hlt2⟩ := mem_clearedFrom.mp hj2c
        rw [Nat.sub_zero] at hget1 hget2
        rw [movedPipes, List.get?_map] at hget1 hget2
        obtain ⟨p1, hp1, hq1⟩ := Option.map_eq_some'.mp hget1
        obtain ⟨p2, hp2, hq2⟩ := Option.map_eq_some'.mp hget2
        have hx1 : p1.xPosition - s.pipe_speed + 50 < s.pilot_x := by
          rw [← hq1] at hlt1
          exact hlt1
        have hx2 : p2.xPosition - s.pipe_speed + 50 < s.pilot_x := by
          rw [← hq2] at hlt2
          exact hlt2
        have hn1 : j1 ∉ clearedFrom s.pilot_x s.pipes 0 := fun hmem => hj1p (hsub hmem)
        have hn2 : j2 ∉ clearedFrom s.pilot_x s.pipes 0 := fun hmem => hj2p (hsub hmem)
        have hge1 : s.pilot_x ≤ p1.xPosition + 50 := by
          by_contra hcon
          push_neg at hcon
          exact hn1 (mem_clearedFrom.mpr ⟨Nat.zero_le _, p1, by rwa [Nat.sub_zero], hcon⟩)
        have hge2 : s.pilot_x ≤ p2.xPosition + 50 := by
          by_contra hcon
          push_neg at hcon
          exact hn2 (mem_clearedFrom.mpr ⟨Nat.zero_le _, p2, by rwa [Nat.sub_zero], hcon⟩)
        by_contra hne
        obtain ⟨hlen1, hgetv1⟩ := List.get?_eq_some.mp hp1
        obtain ⟨hlen2, hgetv2⟩ := List.get?_eq_some.mp hp2
        have hR : s.pipe_speed ≤ |p1.xPosition - p2.xPosition| := by
          rcases Nat.lt_or_ge j1 j2 with hlt | hge
          · have hr := (List.pairwise_iff_get.mp hpair) ⟨j1, hlen1⟩ ⟨j2, hlen2⟩
              (Fin.mk_lt_mk.mpr hlt)
            rw [hgetv1, hgetv2] at hr
            exact hr
          · have hlt2' : j2 < j1 := lt_of_le_of_ne hge fun he => hne (he ▸ rfl)
            have hr := (List.pairwise_iff_get.mp hpair) ⟨j2, hlen2⟩ ⟨j1, hlen1⟩
              (Fin.mk_lt_mk.mpr hlt2')
            rw [hgetv1, hgetv2] at hr
            rw [abs_sub_comm] at hr
            exact hr
        have habs : |p1.xPosition - p2.xPosition| < s.pipe_speed := by
          rw [abs_sub_lt_iff]
          constructor <;> linarith
        linarith
      exact Nat.add_le_add_left hcard _

/-- Witness for the amended C6 at a freshly loaded one-pipe level. -/
theorem score_monotone_and_bounded_witness :
    (clearedFrom engSimple.pilot_x engSimple.pipes 0 ⊆ engSimple.passed_pipes) ∧
    engSimple.pipes.Pairwise
      (fun p q => engSimple.pipe_speed ≤ |p.xPosition - q.xPosition|) ∧
    engSimple.score ≤ (engSimple.update false).score ∧
    (engSimple.update false).score ≤ engSimple.score + 1 := by
  have h := score_monotone_and_bounded engSimple false
  have hsub : clearedFrom engSimple.pilot_x engSimple.pipes 0 ⊆ engSimple.passed_pipes :=
    of_decide_eq_true (by with_unfolding_all rfl)
  have hpair : engSimple.pipes.Pairwise
      (fun p q => engSimple.pipe_speed ≤ |p.xPosition - q.xPosition|) :=
    of_decide_eq_true (by with_unfolding_all rfl)
  exact ⟨hsub, hpair, h.1, h.2.2 hsub hpair⟩

/-- Counterexample to C7 as stated: with floor drawn at 500, a
descriptor with gap center 420 and height 150 yields gapBottom 495,
which exceeds `floor − 10 = 490` yet is left unshifted (the code clips
only when gapBottom exceeds the floor itself); and an odd height 151
yields gapTop 225 (integer `// 2`), not the exact 300 − 151/2 = 224.5. -/
theorem load_clip_trigger_cx :
    Except.map
        (fun s => (s.floor_y, s.pipes.map (fun (pipe : Pipe) => (pipe.topPipe, pipe.bottomPipe))))
        (defaultEngine.load_level cfgClip 500)
      = .ok (500, [(345, 495), (225, 375)]) ∧
    ((495 : ℚ) > 500 - 10) ∧ ((495 : ℚ) ≠ 500 - 10) ∧
    ((225 : ℚ) ≠ 300 - 151 / 2) :=
  ⟨by with_unfolding_all rfl,
   of_decide_eq_true (by with_unfolding_all rfl),
   of_decide_eq_true (by with_unfolding_all rfl),
   of_decide_eq_true (by with_unfolding_all rfl)⟩

/-- C7 amended: on a load with a well-ordered floor range, each
descriptor produces a pipe with `gapTop = gapCenter − gapHeight // 2`
and `gapBottom = gapCenter + gapHeight // 2` (integer division); the
gap is relocated — to `gapBottom = floor − 10` with
`gapTop = gapBottom − gapHeight`, hence a full `gapHeight` opening —
exactly when that gapBottom exceeds the drawn floor itself (not
`floor − 10`). -/
theorem load_level_gap_formula (s : GameEngine) (cfg : LevelConfig)
    (mn mx floorDraw : ℤ) (hge : cfg.floorRange = some (mn, mx)) (hle : mn ≤ mx)
    (i : ℕ) (pc : PipeConfig) (hp : cfg.pipes.get? i = some pc) :
    ∃ (s' : GameEngine) (pipe : Pipe),
      s.load_level cfg floorDraw = .ok s' ∧
      s'.floor_y = (floorDraw : ℚ) ∧
      s'.pipes.get? i = some pipe ∧
      (((pc.gapCenter + pc.gapHeight.fdiv 2 : ℤ) : ℚ) > (floorDraw : ℚ) →
        pipe.bottomPipe = (floorDraw : ℚ) - 10 ∧
        pipe.bottomPipe - pipe.topPipe = (pc.gapHeight : ℚ)) ∧
      (((pc.gapCenter + pc.gapHeight.fdiv 2 : ℤ) : ℚ) ≤ (floorDraw : ℚ) →
        pipe.topPipe = ((pc.gapCenter - pc.gapHeight.fdiv 2 : ℤ) : ℚ) ∧
        pipe.bottomPipe = ((pc.gapCenter + pc.gapHeight.fdiv 2 : ℤ) : ℚ)) := by
  refine ⟨{ s.reset with
      floor_y := (floorDraw : ℚ)
      pipes := cfg.pipes.map (mkLevelPipe (floorDraw : ℚ)) },
    mkLevelPipe (floorDraw : ℚ) pc, ?_, rfl, ?_, ?_, ?_⟩
  · unfold GameEngine.load_level
    rw [hge]
    dsimp only
    rw [if_neg (not_lt.mpr hle)]
    rfl
  · show (cfg.pipes.map (mkLevelPipe (floorDraw : ℚ))).get? i = _
    rw [List.get?_map, hp]
    rfl
  · intro htrig
    simp only [mkLevelPipe]
    rw [if_pos htrig]
    exact ⟨rfl, by ring⟩
  · intro htrig
    simp only [mkLevelPipe]
    rw [if_neg (not_lt.mpr htrig)]
    exact ⟨rfl, rfl⟩

/-- Witness for the amended C7: a clipped descriptor (gap bottom 555
over floor 500) and all its side conditions at concrete inputs. -/
theorem load_level_gap_formula_witness :
    ∃ (s' : GameEngine) (pipe : Pipe),
      defaultEngine.load_level cfgClipW 500 = .ok s' ∧
      s'.floor_y = ((500 : ℤ) : ℚ) ∧
      s'.pipes.get? 0 = some pipe ∧
      ((((480 : ℤ) + (150 : ℤ).fdiv 2 : ℤ) : ℚ) > ((500 : ℤ) : ℚ) →
        pipe.bottomPipe = ((500 : ℤ) : ℚ) - 10 ∧
        pipe.bottomPipe - pipe.topPipe = ((150 : ℤ) : ℚ)) ∧
      ((((480 : ℤ) + (150 : ℤ).fdiv 2 : ℤ) : ℚ) ≤ ((500 : ℤ) : ℚ) →
        pipe.topPipe = (((480 : ℤ) - (150 : ℤ).fdiv 2 : ℤ) : ℚ) ∧
        pipe.bottomPipe = (((480 : ℤ) + (150 : ℤ).fdiv 2 : ℤ) : ℚ)) :=
  load_level_gap_formula defaultEngine cfgClipW 500 500 500 rfl le_rfl 0
    { xPosition := 400, gapCenter := 480, gapHeight := 150 } rfl

/-- Counterexample to C8 as stated: `GameEngine.update` performs no
retirement or spawning, so loading a one-pipe level leaves the track at
length 1 (not the lookahead count 4) after ticks, and a pipe already
past the retirement x (−150, moving to −153) survives the tick on a
live instance. -/
theorem track_not_maintained_cx :
    Except.map
        (fun s => ((s.update false).pipes.length, (s.ticks [false, false, false]).pipes.length))
        (defaultEngine.load_level cfgOnePipe 500) = .ok (1, 1) ∧
    ((1 : ℕ) ≠ 4) ∧
    Except.map
        (fun s => ((s.update false).pipes.map (fun (pipe : Pipe) => pipe.xPosition),
                   (s.update false).game_over))
        (defaultEngine.load_level cfgBehindFar 500) = .ok ([-153], false) :=
  ⟨by with_unfolding_all rfl, by omega, by with_unfolding_all rfl⟩

/-- C8 amended: `FlappyBirdGame` (which always starts with 4 pipes,
250 apart) keeps its track at exactly the lookahead count 4 after
arbitrarily many ticks, for any gap draws and decisions, via the
retire-then-spawn step; `GameEngine.update` never retires or spawns, so
its track length stays equal to the loaded level's obstacle count. -/
theorem track_length_maintained :
    (∀ (g1 g2 g3 g4 : ℤ) (l : List (Bool × ℤ)),
      ((mkFBGame g1 g2 g3 g4).ticks l).pipes.length = 4) ∧
    (∀ (s : GameEngine) (d : Bool), (s.update d).pipes.length = s.pipes.length) := by
  constructor
  · intro g1 g2 g3 g4 l
    exact fbinv_pipes_length _ (fbinv_ticks _ l (fbinv_init g1 g2 g3 g4))
  · exact update_pipes_length

/-- Counterexample to C9 as stated: loading an inverted floor range
(min 600 > max 500) onto a running instance faults only inside the
random draw — after `reset()` has already wiped the instance, whose
pipes and score are gone (load is not atomic, previous instance not
left unchanged); and a `gapHeight = 0` descriptor is not rejected:
it loads a degenerate pipe with `gapTop = gapBottom = 300`. -/
theorem load_rejects_nothing_cx :
    engPrev.load_level cfgBadRange 0 = .error engPrev.reset ∧
    engPrev.reset.pipes = [] ∧
    engPrev.reset.score = 0 ∧
    engPrev.pipes ≠ [] ∧
    engPrev.score = 5 ∧
    Except.map (fun s => s.pipes.map (fun (pipe : Pipe) => (pipe.topPipe, pipe.bottomPipe)))
        (engPrev.load_level cfgZeroGap 500) = .ok [(300, 300)] :=
  ⟨by with_unfolding_all rfl, rfl, rfl, by simp [engPrev, defaultEngine, mkEngine], rfl,
   by with_unfolding_all rfl⟩

/-- C9 amended: `load_level` validates nothing.  With an explicit floor
range it fails only when `min > max` (the `random.randint` contract),
and that failure leaves the engine in its reset state — the previously
running instance is already wiped, not left unchanged; with
`min ≤ max` the load always succeeds, loading one pipe per descriptor
regardless of `gapHeight ≤ 0` or degenerate gaps. -/
theorem load_no_validation (s : GameEngine) (cfg : LevelConfig)
    (mn mx floorDraw : ℤ) (hge : cfg.floorRange = some (mn, mx)) :
    (mn > mx → s.load_level cfg floorDraw = .error s.reset) ∧
    (mn ≤ mx → ∃ s' : GameEngine,
      s.load_level cfg floorDraw = .ok s' ∧ s'.pipes.length = cfg.pipes.length) := by
  constructor
  · intro hgt
    unfold GameEngine.load_level
    rw [hge]
    dsimp only
    rw [if_pos hgt]
  · intro hle
    refine ⟨{ s.reset with
        floor_y := (floorDraw : ℚ)
        pipes := cfg.pipes.map (mkLevelPipe (floorDraw : ℚ)) }, ?_, ?_⟩
    · unfold GameEngine.load_level
      rw [hge]
      dsimp only
      rw [if_neg (not_lt.mpr hle)]
      rfl
    · show (cfg.pipes.map (mkLevelPipe (floorDraw : ℚ))).length = cfg.pipes.length
      rw [List.length_map]

/-- Witness for the amended C9 at concrete malformed descriptors. -/
theorem load_no_validation_witness :
    ((600 : ℤ) > 500 → engPrev.load_level cfgBadRange 0 = .error engPrev.reset) ∧
    ((500 : ℤ) ≤ 500 → ∃ s' : GameEngine,
      engPrev.load_level cfgZeroGap 500 = .ok s' ∧
      s'.pipes.length = cfgZeroGap.pipes.length) :=
  ⟨(load_no_validation engPrev cfgBadRange 600 500 0 rfl).1,
   (load_no_validation engPrev cfgZeroGap 500 500 500 rfl).2⟩

end Flappy
